import Mathlib

/-!
Verification of the Sonoff outlet firmware coordinator (src/main/main.c).

The firmware is single-threaded event-driven C.  We give a shallow
embedding: the mutable globals (`switch_on.value.bool_value`, the relay
GPIO level, the `initialized` flag, the persistent LED pattern last set
via `led_status_set`) form a `DeviceState`; each C handler becomes a pure
function from a state (plus the externally queried environment, e.g.
`homekit_is_paired()`) to a new state together with the ordered list of
observable side effects it performs.
-/

namespace Sonoff

/-- The six named LED patterns of main.c (mode_normal, mode_connecting_to_wifi,
mode_no_wifi_config, mode_unpaired, mode_reset, mode_identify). -/
inductive Pattern
  | normal
  | connectingToWifi
  | noWifiConfig
  | unpaired
  | reset
  | identify
deriving DecidableEq, Repr

/-- Observable side effects performed by the handlers, in program order.
`log` is a printf; `signal` is `led_status_signal` (transient, does not
change the persistent pattern); `setPattern` is `led_status_set`;
`notify` is `homekit_characteristic_notify` of the on characteristic;
`delayMs` is `vTaskDelay` converted to milliseconds. -/
inductive Effect
  | log (msg : String)
  | relayWrite (b : Bool)
  | signal (p : Pattern)
  | setPattern (p : Pattern)
  | notify (v : Bool)
  | delayMs (ms : Nat)
  | wifiConfigReset
  | homekitServerReset
  | systemRestart
  | homekitServerInit
  | otaTftpInit
deriving DecidableEq, Repr

/-- Whether an effect is a printf log. -/
def Effect.isLog : Effect → Bool
  | .log _ => true
  | _ => false

/-- Whether an effect is an outbound characteristic notification. -/
def Effect.isNotify : Effect → Bool
  | .notify _ => true
  | _ => false

/-- The coordinator-relevant mutable state of main.c:
`switchOn` is `switch_on.value.bool_value`, `relay` the level written to
the relay GPIO, `initFlag` the `static bool initialized` guard, and
`pattern` the persistent LED pattern last passed to `led_status_set`
(`none` before any `led_status_set` call). -/
structure DeviceState where
  switchOn : Bool
  relay : Bool
  initFlag : Bool
  pattern : Option Pattern
deriving DecidableEq, Repr

/-- `relay_write(bool on)`: `gpio_write(relay_gpio, on ? 1 : 0)`. -/
def relay_write (s : DeviceState) (b : Bool) : DeviceState × List Effect :=
  ({ s with relay := b }, [.relayWrite b])

/-- `led_status_set(status, &mode)`: replaces the persistent pattern. -/
def led_status_set (s : DeviceState) (p : Pattern) : DeviceState × List Effect :=
  ({ s with pattern := some p }, [.setPattern p])

/-- `led_status_signal(status, &mode)`: plays a transient pattern once and
then the persistent pattern resumes; the persistent pattern is unchanged. -/
def led_status_signal (s : DeviceState) (p : Pattern) : DeviceState × List Effect :=
  (s, [.signal p])

/-- `reset_configuration_task()` (main.c:73-92): its strictly ordered body,
run on a freshly created FreeRTOS task.  `vTaskDelay(500/portTICK_PERIOD_MS)`
etc. are recorded as `delayMs`. -/
def reset_configuration_task : List Effect :=
  [.signal .reset, .delayMs 500,
   .log "Resetting Wifi Config", .wifiConfigReset,
   .delayMs 1000,
   .log "Resetting HomeKit Config", .homekitServerReset,
   .delayMs 1000,
   .log "Restarting", .systemRestart]

/-- `reset_configuration()` (main.c:94-97): logs and spawns
`reset_configuration_task` via `xTaskCreate`; the spawned task's effects
follow, in its internal order. -/
def reset_configuration : List Effect :=
  .log "Resetting Sonoff configuration" :: reset_configuration_task

/-- `relay_init()` (main.c:103-106): enables the GPIO and writes the
current value of `switch_on.value.bool_value` to the relay. -/
def relay_init (s : DeviceState) : DeviceState × List Effect :=
  relay_write s s.switchOn

/-- `switch_on_callback` (main.c:108-110): invoked by the homekit server
after it has stored the written value into `switch_on.value`; the body
only performs `relay_write(switch_on.value.bool_value)`. -/
def switch_on_callback (s : DeviceState) : DeviceState × List Effect :=
  relay_write s s.switchOn

/-- External attribute write path: the homekit server stores the written
value `v` into `switch_on.value.bool_value` and then invokes
`switch_on_callback`. -/
def on_attribute_write (s : DeviceState) (v : Bool) : DeviceState × List Effect :=
  switch_on_callback { s with switchOn := v }

/-- Button gestures delivered to `button_callback`; `other c` stands for
any `button_event_t` value distinct from the three recognized ones. -/
inductive ButtonEvent
  | single_press
  | double_press
  | long_press
  | other (code : Nat)
deriving DecidableEq, Repr

/-- `button_callback` (main.c:112-133). -/
def button_callback (s : DeviceState) : ButtonEvent → DeviceState × List Effect
  | .single_press =>
      let v := !s.switchOn
      let s1 := { s with switchOn := v }
      let (s2, es) := relay_write s1 s1.switchOn
      (s2, .log "Toggling relay" :: es ++ [.notify s2.switchOn])
  | .double_press => (s, [.log "Restarting", .systemRestart])
  | .long_press => (s, reset_configuration)
  | .other _ => (s, [.log "Unknown button event"])

/-- `switch_identify` (main.c:135-138). -/
def switch_identify (s : DeviceState) : DeviceState × List Effect :=
  let (s1, es) := led_status_signal s .identify
  (s1, .log "Switch identify" :: es)

/-- Homekit server lifecycle events seen by `on_homekit_event`;
`other` stands for any `homekit_event_t` distinct from the two tested. -/
inductive HomekitEvent
  | pairing_added
  | pairing_removed
  | other
deriving DecidableEq, Repr

/-- `on_homekit_event` (main.c:164-172); `isPaired` is the result of the
`homekit_is_paired()` query at the moment the handler runs. -/
def on_homekit_event (isPaired : Bool) (s : DeviceState) :
    HomekitEvent → DeviceState × List Effect
  | .pairing_added => led_status_set s .normal
  | .pairing_removed =>
      if !isPaired then led_status_set s .unpaired else (s, [])
  | .other => (s, [])

/-- Provisioning status events delivered to `on_wifi_config_event`.
The code tests only `WIFI_CONFIG_CONNECTED`; the remaining constructors
cover every other status the provisioning collaborator can report. -/
inductive WifiConfigEvent
  | connected
  | unconfigured
  | connecting
  | disconnected
deriving DecidableEq, Repr

/-- `on_wifi_config_event` (main.c:181-192), with the redundant inner
`if (!initialized)` of the source kept; `isPaired` is the value of
`homekit_is_paired()` when the branch runs. -/
def on_wifi_config_event (isPaired : Bool) (s : DeviceState) :
    WifiConfigEvent → DeviceState × List Effect
  | .connected =>
      if !s.initFlag then
        if !s.initFlag then
          let s1 := { s with initFlag := true }
          let (s2, es) := led_status_set s1 (if isPaired then .normal else .unpaired)
          (s2, [.homekitServerInit, .otaTftpInit] ++ es)
        else (s, [])
      else (s, [])
  | _ => (s, [])

/-- One inbound coordinator event: a tagged union of the four families. -/
inductive OutletEvent
  | button (e : ButtonEvent)
  | attrWrite (v : Bool)
  | homekit (e : HomekitEvent)
  | wifi (e : WifiConfigEvent)
  | identify
deriving DecidableEq, Repr

/-- Dispatch one event; `isPaired` is the `homekit_is_paired()` oracle at
the time this event's handler runs. -/
def stepEvent (isPaired : Bool) (s : DeviceState) :
    OutletEvent → DeviceState × List Effect
  | .button e => button_callback s e
  | .attrWrite v => on_attribute_write s v
  | .homekit e => on_homekit_event isPaired s e
  | .wifi e => on_wifi_config_event isPaired s e
  | .identify => switch_identify s

/-- Run a sequence of events, each tagged with its `homekit_is_paired()`
oracle value; returns the final state. -/
def runEvents (s : DeviceState) : List (Bool × OutletEvent) → DeviceState
  | [] => s
  | e :: rest => runEvents (stepEvent e.1 s e.2).1 rest

/-- Run a sequence of events, returning the final state and the
concatenated effect trace. -/
def runEventsTrace (s : DeviceState) :
    List (Bool × OutletEvent) → DeviceState × List Effect
  | [] => (s, [])
  | e :: rest =>
      let (s1, es) := stepEvent e.1 s e.2
      let (s2, rest') := runEventsTrace s1 rest
      (s2, es ++ rest')

/-- `user_init` (main.c:217-237), coordinator-relevant part.  `storedOn`
is the attribute value held by `switch_on.value.bool_value` when
`relay_init` runs (the value the persistent attribute store yields at
boot); `relay0` the arbitrary pre-boot relay GPIO level; `wifiConfigured`
the result of `wifi_is_configured()`. -/
def user_init (storedOn wifiConfigured relay0 : Bool) : DeviceState × List Effect :=
  let s0 : DeviceState :=
    { switchOn := storedOn, relay := relay0, initFlag := false, pattern := none }
  let (s1, e1) := relay_init s0
  let (s2, e2) := led_status_set s1
    (if wifiConfigured then .connectingToWifi else .noWifiConfig)
  (s2, e1 ++ e2)

end Sonoff

namespace Sonoff

/-! ## Helper lemmas -/

theorem runEvents_append (s : DeviceState) (a b : List (Bool × OutletEvent)) :
    runEvents s (a ++ b) = runEvents (runEvents s a) b := by
  induction a generalizing s with
  | nil => rfl
  | cons e rest ih => simp [runEvents, ih]

theorem step_single_press_relay (p : Bool) (s : DeviceState) :
    (stepEvent p s (.button .single_press)).1.relay =
      (stepEvent p s (.button .single_press)).1.switchOn := rfl

theorem step_attr_write_relay (p : Bool) (s : DeviceState) (v : Bool) :
    (stepEvent p s (.attrWrite v)).1.relay =
      (stepEvent p s (.attrWrite v)).1.switchOn := rfl

/-! ## Claim theorems -/

/-- C3: a long press produces, in strict order, the `Reset` transient
signal, a delay, the provisioning-config erase, a delay, the pairing-config
erase, a delay, and an unconditional restart; no erase precedes its delay
and the restart follows both erases.  The handler changes no coordinator
state and, logs aside, its effect trace is exactly that sequence. -/
theorem long_press_reset_ordering (s : DeviceState) :
    (button_callback s .long_press).1 = s ∧
    (button_callback s .long_press).2.filter (fun e => !e.isLog) =
      [.signal .reset, .delayMs 500, .wifiConfigReset, .delayMs 1000,
       .homekitServerReset, .delayMs 1000, .systemRestart] ∧
    (button_callback s .long_press).2.getLast? = some .systemRestart := by
  refine ⟨rfl, ?_, ?_⟩ <;> rfl

/-- C4: `PairingAdded` sets the persistent pattern to `Normal`;
`PairingRemoved` sets it to `Unpaired` when no pairing remains
(`homekit_is_paired()` returns false) and leaves the handler a complete
no-op when at least one pairing still exists. -/
theorem pairing_event_pattern (s : DeviceState) :
    ((on_homekit_event true s .pairing_added).1.pattern = some .normal ∧
      (on_homekit_event false s .pairing_added).1.pattern = some .normal) ∧
    (on_homekit_event false s .pairing_removed).1.pattern = some .unpaired ∧
    (on_homekit_event true s .pairing_removed) = (s, []) := by
  refine ⟨⟨rfl, rfl⟩, rfl, rfl⟩

/-- C5: an external attribute write emits no outbound notification, while
a single press emits exactly one, carrying the toggled attribute value. -/
theorem echo_suppression (s : DeviceState) (v : Bool) :
    (on_attribute_write s v).2.filter Effect.isNotify = [] ∧
    (button_callback s .single_press).2.filter Effect.isNotify =
      [.notify (!s.switchOn)] := by
  exact ⟨rfl, rfl⟩

/-- C6: at startup the relay is initialized to the stored attribute value
and the persistent pattern reflects whether provisioning data exists; in
particular, with stored value true and no provisioning config, the relay
is on and the pattern is `NoWifiConfig`. -/
theorem startup_state (storedOn wifiConfigured relay0 : Bool) :
    (user_init storedOn wifiConfigured relay0).1.relay = storedOn ∧
    (user_init storedOn wifiConfigured relay0).1.switchOn = storedOn ∧
    (user_init storedOn wifiConfigured relay0).1.initFlag = false ∧
    (user_init storedOn wifiConfigured relay0).1.pattern =
      some (if wifiConfigured then .connectingToWifi else .noWifiConfig) ∧
    (user_init true false relay0).1.relay = true ∧
    (user_init true false relay0).1.pattern = some .noWifiConfig := by
  cases wifiConfigured <;> exact ⟨rfl, rfl, rfl, rfl, rfl, rfl⟩

/-- C8: any unrecognized button gesture only logs; the state (attribute,
relay, pattern, init flag) is unchanged and no restart or reset effect is
emitted. -/
theorem unknown_button_noop (s : DeviceState) (c : Nat) :
    button_callback s (.other c) = (s, [.log "Unknown button event"]) := rfl

/-- C9: an identify request plays the `Identify` pattern as a transient
signal only: the state (attribute, relay, pattern, init flag) is
unchanged and no persistent pattern change is emitted. -/
theorem identify_transient_only (s : DeviceState) :
    switch_identify s = (s, [.log "Switch identify", .signal .identify]) := rfl

end Sonoff

namespace Sonoff

/-! ## Sequence lemmas -/

theorem stepEvent_connected_noop (p : Bool) (s : DeviceState)
    (h : s.initFlag = true) : stepEvent p s (.wifi .connected) = (s, []) := by
  simp [stepEvent, on_wifi_config_event, h]

theorem runEventsTrace_connected_noop (p : Bool) (s : DeviceState)
    (h : s.initFlag = true) (m : Nat) :
    runEventsTrace s (List.replicate m (p, OutletEvent.wifi .connected)) = (s, []) := by
  induction m with
  | zero => rfl
  | succ k ih =>
      rw [List.replicate_succ]
      simp [runEventsTrace, stepEvent_connected_noop p s h, ih]

theorem stepEvent_connected_fresh (p : Bool) (s : DeviceState)
    (h : s.initFlag = false) :
    stepEvent p s (.wifi .connected) =
      ({ s with
          initFlag := true,
          pattern := some (if p then Pattern.normal else Pattern.unpaired) },
       [.homekitServerInit, .otaTftpInit,
        .setPattern (if p then Pattern.normal else Pattern.unpaired)]) := by
  simp [stepEvent, on_wifi_config_event, h, led_status_set]

theorem step_initFlag_mono (p : Bool) (s : DeviceState) (e : OutletEvent)
    (h : s.initFlag = true) : (stepEvent p s e).1.initFlag = true := by
  cases e with
  | button be =>
      cases be <;>
        simp [stepEvent, button_callback, relay_write, reset_configuration, h]
  | attrWrite v =>
      simp [stepEvent, on_attribute_write, switch_on_callback, relay_write, h]
  | homekit he =>
      cases he <;> cases p <;>
        simp [stepEvent, on_homekit_event, led_status_set, h]
  | wifi we =>
      cases we <;> simp [stepEvent, on_wifi_config_event, h]
  | identify => simp [stepEvent, switch_identify, led_status_signal, h]

theorem runEvents_initFlag_mono (s : DeviceState)
    (evs : List (Bool × OutletEvent)) (h : s.initFlag = true) :
    (runEvents s evs).initFlag = true := by
  induction evs generalizing s with
  | nil => exact h
  | cons ev rest ih => exact ih _ (step_initFlag_mono ev.1 s ev.2 h)

theorem step_nonconnected_initFlag (p : Bool) (s : DeviceState) (e : OutletEvent)
    (hne : e ≠ OutletEvent.wifi .connected) :
    (stepEvent p s e).1.initFlag = s.initFlag := by
  cases e with
  | button be => cases be <;> rfl
  | attrWrite v => rfl
  | homekit he => cases he <;> cases p <;> rfl
  | wifi we =>
      cases we with
      | connected => exact absurd rfl hne
      | unconfigured => rfl
      | connecting => rfl
      | disconnected => rfl
  | identify => rfl

/-! ## Remaining claim theorems -/

/-- C1: over any sequence of single-press button events and external
attribute writes, after each event's handler completes the relay output
equals the current attribute value `switch_on.value.bool_value`. -/
theorem relay_attribute_consistency (s : DeviceState)
    (evs : List (Bool × OutletEvent)) (n : Nat)
    (hgood : ∀ pe ∈ evs, pe.2 = OutletEvent.button .single_press ∨
      ∃ v, pe.2 = OutletEvent.attrWrite v)
    (hn : n < evs.length) :
    (runEvents s (evs.take (n + 1))).relay =
      (runEvents s (evs.take (n + 1))).switchOn := by
  have htake : evs.take (n + 1) = evs.take n ++ [evs[n]] := by
    rw [List.take_succ, List.getElem?_eq_getElem hn]
    rfl
  rw [htake, runEvents_append]
  have hstep : runEvents (runEvents s (evs.take n)) [evs[n]] =
      (stepEvent (evs[n]).1 (runEvents s (evs.take n)) (evs[n]).2).1 := rfl
  have hmem : evs[n] ∈ evs := List.getElem_mem hn
  rcases hgood _ hmem with h | ⟨v, h⟩
  · rw [hstep, h]
    exact step_single_press_relay _ _
  · rw [hstep, h]
    exact step_attr_write_relay _ _ _

/-- Witness for C1 at a concrete one-event sequence. -/
theorem relay_attribute_consistency_witness :
    (∀ pe ∈ [((false : Bool), OutletEvent.button .single_press)],
        pe.2 = OutletEvent.button .single_press ∨
          ∃ v, pe.2 = OutletEvent.attrWrite v) ∧
    0 < [((false : Bool), OutletEvent.button .single_press)].length ∧
    (runEvents ⟨false, true, false, none⟩
        ([((false : Bool), OutletEvent.button .single_press)].take (0 + 1))).relay =
      (runEvents ⟨false, true, false, none⟩
        ([((false : Bool), OutletEvent.button .single_press)].take (0 + 1))).switchOn := by
  refine ⟨by decide, by decide, relay_attribute_consistency _ _ 0 (by decide) (by decide)⟩

/-- C2: delivering `Connected` N ≥ 1 times to `on_wifi_config_event` from
an uninitialized state performs the one-time initialization side effects
(homekit server start, OTA TFTP listener start) exactly once and leaves
the initialization flag set. -/
theorem connected_init_once (p : Bool) (s : DeviceState) (n : Nat)
    (h0 : s.initFlag = false) (hn : 1 ≤ n) :
    (runEventsTrace s (List.replicate n (p, OutletEvent.wifi .connected))).2.count
        Effect.homekitServerInit = 1 ∧
    (runEventsTrace s (List.replicate n (p, OutletEvent.wifi .connected))).2.count
        Effect.otaTftpInit = 1 ∧
    (runEventsTrace s (List.replicate n (p, OutletEvent.wifi .connected))).1.initFlag
      = true := by
  obtain ⟨m, rfl⟩ : ∃ m, n = m + 1 := ⟨n - 1, (Nat.succ_pred_eq_of_pos hn).symm⟩
  have hstep := stepEvent_connected_fresh p s h0
  have hrest := runEventsTrace_connected_noop p
    ({ s with
        initFlag := true,
        pattern := some (if p then Pattern.normal else Pattern.unpaired) }) rfl m
  have htot : runEventsTrace s (List.replicate (m + 1) (p, OutletEvent.wifi .connected)) =
      ({ s with
          initFlag := true,
          pattern := some (if p then Pattern.normal else Pattern.unpaired) },
       [.homekitServerInit, .otaTftpInit,
        .setPattern (if p then Pattern.normal else Pattern.unpaired)]) := by
    rw [List.replicate_succ]
    simp [runEventsTrace, hstep, hrest]
  rw [htot]
  refine ⟨?_, ?_, rfl⟩ <;> cases p <;> rfl

/-- Witness for C2 with two `Connected` events. -/
theorem connected_init_once_witness :
    (DeviceState.mk false false false none).initFlag = false ∧ 1 ≤ 2 ∧
    ((runEventsTrace ⟨false, false, false, none⟩
        (List.replicate 2 (true, OutletEvent.wifi .connected))).2.count
        Effect.homekitServerInit = 1 ∧
     (runEventsTrace ⟨false, false, false, none⟩
        (List.replicate 2 (true, OutletEvent.wifi .connected))).2.count
        Effect.otaTftpInit = 1 ∧
     (runEventsTrace ⟨false, false, false, none⟩
        (List.replicate 2 (true, OutletEvent.wifi .connected))).1.initFlag = true) := by
  exact ⟨rfl, by decide, connected_init_once true ⟨false, false, false, none⟩ 2 rfl (by decide)⟩

/-- C7 counterexample: with the persistent pattern currently `Normal` and
the server uninitialized, an `Unconfigured` status event does not set the
pattern to `NoWifiConfig`, and a `Connecting` event does not set it to
`ConnectingToWifi`: the handler ignores every non-`Connected` status. -/
theorem wifi_status_live_update_cex :
    (on_wifi_config_event false
        ⟨false, false, false, some Pattern.normal⟩ .unconfigured).1.pattern ≠
      some Pattern.noWifiConfig ∧
    (on_wifi_config_event false
        ⟨false, false, false, some Pattern.normal⟩ .connecting).1.pattern ≠
      some Pattern.connectingToWifi := by decide

/-- C7 (amended): `on_wifi_config_event` is a complete no-op on every
status other than `Connected`; the `NoWifiConfig` / `ConnectingToWifi`
pattern choice is made only once, at startup, from whether provisioning
data exists. -/
theorem wifi_status_events_noop (p storedOn wc r0 : Bool) (s : DeviceState) :
    on_wifi_config_event p s .unconfigured = (s, []) ∧
    on_wifi_config_event p s .connecting = (s, []) ∧
    on_wifi_config_event p s .disconnected = (s, []) ∧
    (user_init storedOn wc r0).1.pattern =
      some (if wc then Pattern.connectingToWifi else Pattern.noWifiConfig) := by
  cases wc <;> exact ⟨rfl, rfl, rfl, rfl⟩

/-- C10: the initialization flag starts false at startup, is left
untouched by every event other than a `Connected` provisioning event, and
once true stays true across any further event sequence. -/
theorem init_flag_monotone (storedOn wc r0 p : Bool) (s : DeviceState)
    (e : OutletEvent) (evs : List (Bool × OutletEvent)) :
    (user_init storedOn wc r0).1.initFlag = false ∧
    (e ≠ OutletEvent.wifi .connected → (stepEvent p s e).1.initFlag = s.initFlag) ∧
    (s.initFlag = true → (runEvents s evs).initFlag = true) := by
  exact ⟨rfl, step_nonconnected_initFlag p s e,
    runEvents_initFlag_mono s evs⟩

/-- Witness for C10 at concrete states and events. -/
theorem init_flag_monotone_witness :
    ((stepEvent false ⟨false, false, false, none⟩
        (OutletEvent.button .single_press)).1.initFlag =
      (DeviceState.mk false false false none).initFlag) ∧
    (runEvents ⟨false, false, true, none⟩
        [(true, OutletEvent.attrWrite false)]).initFlag = true := by
  have h1 := init_flag_monotone false false false false
    ⟨false, false, false, none⟩ (OutletEvent.button .single_press) []
  have h2 := init_flag_monotone false false false true
    ⟨false, false, true, none⟩ (OutletEvent.button .single_press)
    [(true, OutletEvent.attrWrite false)]
  exact ⟨h1.2.1 (by decide), h2.2.2 rfl⟩

end Sonoff
